import Mathlib

/-!
Verification of the cf-cli Output/Error Protocol (src/output.rs, src/main.rs).

Shallow embedding notes:
- serde_json values are modelled by an inductive `Json`; the numbers this layer
  serializes are all integers (schema version `v: u8`, `percent: u8`,
  `retry_after_s: u32`, and integral fields of payloads), so `Json.num` carries
  an `Int`.
- `serde_json::to_string` (compact rendering, struct fields in declaration
  order, `#[serde(skip_serializing_if = "Option::is_none")]` dropping absent
  options) is modelled by `Json.render` over `PebbleError.toJson` and
  `machineRecord`.
- The `json!` macro builds a `serde_json::Map`, which is a `BTreeMap` ordered
  by key under serde_json's default features (the repository's Cargo.toml is
  not part of the sources, so the `preserve_order` feature state is unknown;
  no property proved here depends on the inner key order). `jsonMacroObj`
  sorts the written fields by key to model the default.
- `println!`/`eprintln!` emissions are modelled as `Line` values (stream plus
  one line of text, without the trailing newline).
- `std::process::exit(code)` never returns; `Output.error` is modelled as a
  function producing a terminal `ErrorOutcome` (rendered lines plus the exit
  code), which `mainRun` treats as the final state of the process.
- Rust `u8`/`u32` values are modelled as `Nat` (no arithmetic is performed on
  them at this layer, so no wrap-around can occur); exit codes (`i32`) as
  `Int`.
-/

/-- Model of `serde_json::Value` restricted to the integral numerics this
program emits. -/
inductive Json where
  | null
  | bool (b : Bool)
  | num (n : Int)
  | str (s : String)
  | arr (elems : List Json)
  | obj (members : List (String × Json))
deriving Repr

/-- Lower-case hex digit, as used by serde_json's `\u00XX` escapes. -/
def hexDigit (n : Nat) : Char :=
  if n < 10 then Char.ofNat (48 + n) else Char.ofNat (87 + n)

/-- Character escaping of serde_json's string serializer: `"`, `\`, the named
control escapes, and `\u00XX` for the remaining control characters. -/
def escapeJsonChar (c : Char) : String :=
  if c = '"' then "\\\""
  else if c = '\\' then "\\\\"
  else if c = '\x08' then "\\b"
  else if c = '\x0c' then "\\f"
  else if c = '\n' then "\\n"
  else if c = '\r' then "\\r"
  else if c = '\t' then "\\t"
  else if c.toNat < 0x20 then
    "\\u00" ++ String.singleton (hexDigit (c.toNat / 16)) ++ String.singleton (hexDigit (c.toNat % 16))
  else String.singleton c

/-- JSON string literal rendering (quotes plus escaped contents). -/
def renderString (s : String) : String :=
  "\"" ++ String.join (s.data.map escapeJsonChar) ++ "\""

mutual

/-- Compact rendering, as `serde_json::to_string` produces it: no spaces,
fields in list order. -/
def Json.render : Json → String
  | .null => "null"
  | .bool true => "true"
  | .bool false => "false"
  | .num n => toString n
  | .str s => renderString s
  | .arr es => "[" ++ renderItems es ++ "]"
  | .obj ms => "\x7b" ++ renderFields ms ++ "\x7d"

/-- Comma-joined compact rendering of array elements. -/
def renderItems : List Json → String
  | [] => ""
  | [e] => e.render
  | e :: e2 :: es => e.render ++ "," ++ renderItems (e2 :: es)

/-- Comma-joined compact rendering of object members. -/
def renderFields : List (String × Json) → String
  | [] => ""
  | [(k, v)] => renderString k ++ ":" ++ v.render
  | (k, v) :: m :: ms => renderString k ++ ":" ++ v.render ++ "," ++ renderFields (m :: ms)

end

/-- Indentation prefix used by the pretty renderer (2 spaces per level, as
`serde_json::to_string_pretty`). -/
def indentStr (n : Nat) : String :=
  String.mk (List.replicate (2 * n) ' ')

mutual

/-- Pretty rendering, as `serde_json::to_string_pretty` produces it: 2-space
indentation, one member per line, `: ` after keys, empty containers compact. -/
def Json.renderPretty : Nat → Json → String
  | _, .null => "null"
  | _, .bool true => "true"
  | _, .bool false => "false"
  | _, .num n => toString n
  | _, .str s => renderString s
  | _, .arr [] => "[]"
  | n, .arr (e :: es) =>
      "[\n" ++ prettyItems (n + 1) (e :: es) ++ "\n" ++ indentStr n ++ "]"
  | _, .obj [] => "\x7b\x7d"
  | n, .obj (m :: ms) =>
      "\x7b\n" ++ prettyFields (n + 1) (m :: ms) ++ "\n" ++ indentStr n ++ "\x7d"

/-- Line-per-element pretty rendering of array elements. -/
def prettyItems : Nat → List Json → String
  | _, [] => ""
  | n, [e] => indentStr n ++ Json.renderPretty n e
  | n, e :: e2 :: es =>
      indentStr n ++ Json.renderPretty n e ++ ",\n" ++ prettyItems n (e2 :: es)

/-- Line-per-member pretty rendering of object members. -/
def prettyFields : Nat → List (String × Json) → String
  | _, [] => ""
  | n, [(k, v)] => indentStr n ++ renderString k ++ ": " ++ Json.renderPretty n v
  | n, (k, v) :: m :: ms =>
      indentStr n ++ renderString k ++ ": " ++ Json.renderPretty n v ++ ",\n" ++ prettyFields n (m :: ms)

end

/-- First value stored under key `k` in an object's member list. -/
def lookupField : List (String × Json) → String → Option Json
  | [], _ => none
  | (k2, v) :: fs, k => if k2 = k then some v else lookupField fs k

/-- Field lookup on a JSON object (`none` on non-objects). -/
def Json.getField : Json → String → Option Json
  | .obj fs, k => lookupField fs k
  | _, _ => none

/-- Whether a JSON object carries a member named `k` at all. -/
def Json.hasKey : Json → String → Bool
  | .obj fs, k => fs.any (fun f => f.1 == k)
  | _, _ => false

/-- Boolean lexicographic order on character lists, mirroring the `Ord`
instance a `BTreeMap<String, Value>` sorts its keys by. -/
def strLeB : List Char → List Char → Bool
  | [], _ => true
  | _ :: _, [] => false
  | a :: as, b :: bs => a.toNat < b.toNat || (a == b && strLeB as bs)

/-- Ordered insertion of an object member by key. -/
def insertField (f : String × Json) : List (String × Json) → List (String × Json)
  | [] => [f]
  | g :: gs => if strLeB f.1.data g.1.data then f :: g :: gs else g :: insertField f gs

/-- Key-ordered member list, as a `BTreeMap` iterates it. -/
def sortFields : List (String × Json) → List (String × Json)
  | [] => []
  | f :: fs => insertField f (sortFields fs)

/-- Object built by the `json!` macro: a `serde_json::Map` (default features:
a `BTreeMap`), so members serialize in key order regardless of written order. -/
def jsonMacroObj (fs : List (String × Json)) : Json :=
  Json.obj (sortFields fs)

/-- The two process output streams. -/
inductive OutStream where
  | stdout
  | stderr
deriving Repr, DecidableEq

/-- One emitted line (text without the trailing newline). -/
structure Line where
  stream : OutStream
  text : String
deriving Repr, DecidableEq

/-- Schema version constant `SCHEMA_VERSION: u8 = 1` from src/output.rs. -/
def SCHEMA_VERSION : Nat := 1

/-- The serialized `Event` wrapper of src/output.rs: a derived-Serialize
struct, so its fields appear in declaration order `v`, `type`, `payload`. -/
def machineRecord (event_type : String) (payload : Json) : Json :=
  Json.obj [("v", Json.num (Int.ofNat SCHEMA_VERSION)),
            ("type", Json.str event_type),
            ("payload", payload)]

/-- The `emit` helper of src/output.rs: one compact JSON line on stdout. -/
def emit (event_type : String) (payload : Json) : Line :=
  ⟨OutStream.stdout, (machineRecord event_type payload).render⟩

/-- The `PebbleError` struct of src/output.rs (field order as declared; the
`Option` fields carry `skip_serializing_if = "Option::is_none"`). -/
structure PebbleError where
  code : String
  cat : String
  op : Option String
  retryable : Bool
  retry_after_s : Option Nat
  fix : List String
  message : Option String
  trace_id : Option String
  details : Option Json
deriving Repr

/-- Entry contributed by an optional field: dropped when `none`
(`skip_serializing_if`), present otherwise. -/
def optEntry (k : String) (v : Option Json) : List (String × Json) :=
  match v with
  | some j => [(k, j)]
  | none => []

/-- Derived-Serialize form of `PebbleError`: declaration-ordered fields with
absent options dropped entirely. -/
def PebbleError.toJson (e : PebbleError) : Json :=
  Json.obj
    ([("code", Json.str e.code), ("cat", Json.str e.cat)]
      ++ optEntry "op" (e.op.map Json.str)
      ++ [("retryable", Json.bool e.retryable)]
      ++ optEntry "retry_after_s" (e.retry_after_s.map (fun n => Json.num (Int.ofNat n)))
      ++ [("fix", Json.arr (e.fix.map Json.str))]
      ++ optEntry "message" (e.message.map Json.str)
      ++ optEntry "trace_id" (e.trace_id.map Json.str)
      ++ optEntry "details" e.details)

/-- Factory `PebbleError::net` from src/output.rs. -/
def PebbleError.net (code message : String) : PebbleError :=
  { code := code, cat := "net", op := none, retryable := true,
    retry_after_s := some 5, fix := ["proxy", "wait"],
    message := some message, trace_id := none, details := none }

/-- Factory `PebbleError::input` from src/output.rs. -/
def PebbleError.input (code message : String) : PebbleError :=
  { code := code, cat := "in", op := none, retryable := false,
    retry_after_s := none, fix := ["param"],
    message := some message, trace_id := none, details := none }

/-- Factory `PebbleError::auth` from src/output.rs. -/
def PebbleError.auth (code message : String) : PebbleError :=
  { code := code, cat := "auth", op := none, retryable := false,
    retry_after_s := none, fix := ["auth"],
    message := some message, trace_id := none, details := none }

/-- Factory `PebbleError::ext` from src/output.rs. -/
def PebbleError.ext (code message : String) : PebbleError :=
  { code := code, cat := "ext", op := none, retryable := true,
    retry_after_s := some 5, fix := ["wait", "report"],
    message := some message, trace_id := none, details := none }

/-- Factory `PebbleError::sys` from src/output.rs. -/
def PebbleError.sys (code message : String) : PebbleError :=
  { code := code, cat := "sys", op := none, retryable := false,
    retry_after_s := none, fix := ["report"],
    message := some message, trace_id := none, details := none }

/-- Factory `PebbleError::timeout` from src/output.rs (caller-supplied
retry-after seconds). -/
def PebbleError.timeout (code message : String) (retry_after : Nat) : PebbleError :=
  { code := code, cat := "time", op := none, retryable := true,
    retry_after_s := some retry_after, fix := ["wait"],
    message := some message, trace_id := none, details := none }

/-- Builder `PebbleError::with_op` from src/output.rs. -/
def PebbleError.with_op (e : PebbleError) (op : String) : PebbleError :=
  { e with op := some op }

/-- Builder `PebbleError::with_details` from src/output.rs; the source takes
any `T: Serialize` and stores `serde_json::to_value(details)`, modelled here
as taking the already-serialized value. -/
def PebbleError.with_details (e : PebbleError) (d : Json) : PebbleError :=
  { e with details := some d }

/-- Exit-code policy `PebbleError::exit_code` from src/output.rs: a match on
the category string with default 2. -/
def PebbleError.exit_code (e : PebbleError) : Int :=
  match e.cat with
  | "in" => 1
  | "auth" => 3
  | "time" => 4
  | _ => 2

/-- The set of errors the program can build: one of the six category
factories, possibly annotated through the two builder mutators. -/
inductive Built : PebbleError → Prop
  | net (c m : String) : Built (PebbleError.net c m)
  | input (c m : String) : Built (PebbleError.input c m)
  | auth (c m : String) : Built (PebbleError.auth c m)
  | ext (c m : String) : Built (PebbleError.ext c m)
  | sys (c m : String) : Built (PebbleError.sys c m)
  | timeout (c m : String) (r : Nat) : Built (PebbleError.timeout c m r)
  | with_op (e : PebbleError) (o : String) : Built e → Built (e.with_op o)
  | with_details (e : PebbleError) (d : Json) : Built e → Built (e.with_details d)

/-- The `Output` handler of src/output.rs. -/
structure Output where
  agent_mode : Bool

/-- Constructor `Output::new`. -/
def Output.new (agent_mode : Bool) : Output :=
  ⟨agent_mode⟩

/-- The character-escaping part of Rust's `Debug` formatting for strings
(enough for the ASCII remediation hints this program stores in `fix`). -/
def rustDebugChar (c : Char) : String :=
  if c = '"' then "\\\""
  else if c = '\\' then "\\\\"
  else if c = '\n' then "\\n"
  else if c = '\r' then "\\r"
  else if c = '\t' then "\\t"
  else String.singleton c

/-- Rust `Debug` formatting of one `String`. -/
def rustDebugStr (s : String) : String :=
  "\"" ++ String.join (s.data.map rustDebugChar) ++ "\""

/-- Comma-space-joined `Debug` items of a `Vec<String>`. -/
def rustDebugItems : List String → String
  | [] => ""
  | [s] => rustDebugStr s
  | s :: s2 :: ss => rustDebugStr s ++ ", " ++ rustDebugItems (s2 :: ss)

/-- Rust `{:?}` formatting of a `Vec<String>`, as the human-mode fix line
prints it. -/
def rustDebugStrList (ss : List String) : String :=
  "[" ++ rustDebugItems ss ++ "]"

/-- Space padding of Rust's `{:3}` width specifier (right-aligned, minimum
width 3). -/
def padWidth (w : Nat) (s : String) : String :=
  if s.length < w then String.mk (List.replicate (w - s.length) ' ') ++ s else s

/-- `Output::log`: a `log` envelope on stdout in agent mode, `[LEVEL] message`
on stderr in human mode (Rust `to_uppercase`, ASCII here — the levels passed
by this program are ASCII). -/
def Output.log (o : Output) (level message : String) : List Line :=
  if o.agent_mode then
    [emit "log" (jsonMacroObj [("level", Json.str level), ("message", Json.str message)])]
  else
    [⟨OutStream.stderr, "[" ++ level.toUpper ++ "] " ++ message⟩]

/-- `Output::progress`: a `progress` envelope on stdout in agent mode,
`[{:3}%] message` on stderr in human mode. The percent passes through
unexamined in both branches. -/
def Output.progress (o : Output) (percent : Nat) (message : String) : List Line :=
  if o.agent_mode then
    [emit "progress" (jsonMacroObj [("percent", Json.num (Int.ofNat percent)), ("message", Json.str message)])]
  else
    [⟨OutStream.stderr, "[" ++ padWidth 3 (toString percent) ++ "%] " ++ message⟩]

/-- `Output::result`: a `result` envelope on stdout in agent mode, the data
pretty-printed to stdout in human mode. -/
def Output.result (o : Output) (data : Json) : List Line :=
  if o.agent_mode then
    [emit "result" data]
  else
    [⟨OutStream.stdout, Json.renderPretty 0 data⟩]

/-- Terminal outcome of `Output::error`: the rendered lines together with the
exit code handed to `std::process::exit` (which never returns). -/
structure ErrorOutcome where
  lines : List Line
  exit_code : Int
deriving Repr, DecidableEq

/-- `Output::error`: renders the error (agent mode: one `error` envelope;
human mode: headline, optional retry line, fix line on stderr), then
terminates the process with the category-derived exit code. -/
def Output.error (o : Output) (err : PebbleError) : ErrorOutcome :=
  { lines :=
      if o.agent_mode then
        [emit "error" err.toJson]
      else
        ⟨OutStream.stderr,
          "Error [" ++ err.cat ++ "][" ++ err.code ++ "]: " ++ err.message.getD ""⟩ ::
        ((if err.retryable then
            match err.retry_after_s with
            | some s => [⟨OutStream.stderr, "  Retry after: " ++ toString s ++ "s"⟩]
            | none => []
          else []) ++
         [⟨OutStream.stderr, "  Fix: " ++ rustDebugStrList err.fix⟩]),
    exit_code := err.exit_code }

/-- The five subcommand groups of src/cli.rs (their argument payloads belong
to the external command handlers and are not modelled). -/
inductive Command where
  | dns
  | caddy
  | service
  | registry
  | r2
deriving Repr, DecidableEq

/-- Parsed command line (src/cli.rs `Cli`). -/
structure Cli where
  command : Option Command
  agent : Bool
  manifest : Bool
  verbose : Bool
deriving Repr

/-- Which control path terminated the process. -/
inductive TermPath where
  | outputError
  | normalExit
  | directExit
deriving Repr, DecidableEq

/-- Observable outcome of one `main` run: termination path, exit code, lines
written by the entry point itself. -/
structure MainOutcome where
  path : TermPath
  exit_code : Int
  lines : List Line
deriving Repr, DecidableEq

/-- The dispatch of `main` in src/main.rs. `manifestText` stands for the
pretty-printed manifest of `print_manifest` (its exact text depends on
`CARGO_PKG_VERSION`, which comes from the Cargo.toml absent from the sources).
`handler` models each command handler's `anyhow::Result<()>` (`some msg` is
`Err(e)` with `e.to_string() == msg`); lines the handlers themselves route
through the channel during their run are their own and are not part of the
entry point's emissions collected here. -/
def mainRun (manifestText : String) (handler : Command → Option String) (cli : Cli) : MainOutcome :=
  if cli.manifest then
    { path := TermPath.normalExit, exit_code := 0,
      lines := [⟨OutStream.stdout, manifestText⟩] }
  else
    match cli.command with
    | none =>
        { path := TermPath.directExit, exit_code := 1,
          lines := [⟨OutStream.stderr, "Error: no command provided. Use --help for usage."⟩] }
    | some c =>
        let out := Output.new cli.agent
        match handler c with
        | some msg =>
            let eo := out.error (PebbleError.sys "INTERNAL" msg)
            { path := TermPath.outputError, exit_code := eo.exit_code, lines := eo.lines }
        | none =>
            { path := TermPath.normalExit, exit_code := 0, lines := [] }

/-! Helper lemmas about the error model. -/

/-- Fields common to every program-buildable error: `retry_after_s` is carried
exactly when the category is retryable, `trace_id` is never set, `message` is
always set. -/
lemma built_fields (e : PebbleError) (hb : Built e) :
    e.retry_after_s.isSome = e.retryable ∧ e.trace_id = none ∧ e.message.isSome = true := by
  induction hb with
  | net c m => exact ⟨rfl, rfl, rfl⟩
  | input c m => exact ⟨rfl, rfl, rfl⟩
  | auth c m => exact ⟨rfl, rfl, rfl⟩
  | ext c m => exact ⟨rfl, rfl, rfl⟩
  | sys c m => exact ⟨rfl, rfl, rfl⟩
  | timeout c m r => exact ⟨rfl, rfl, rfl⟩
  | with_op e2 o hb2 ih => exact ih
  | with_details e2 d hb2 ih => exact ih

/-- The serialized form carries an `op` member exactly when `op` is set. -/
lemma hasKey_op (e : PebbleError) : e.toJson.hasKey "op" = e.op.isSome := by
  rcases e with ⟨c1, a1, o1, r1, s1, f1, m1, t1, d1⟩
  cases o1 <;> cases s1 <;> cases m1 <;> cases t1 <;> cases d1 <;> rfl

/-- The serialized form carries a `retry_after_s` member exactly when
`retry_after_s` is set. -/
lemma hasKey_retry_after (e : PebbleError) :
    e.toJson.hasKey "retry_after_s" = e.retry_after_s.isSome := by
  rcases e with ⟨c1, a1, o1, r1, s1, f1, m1, t1, d1⟩
  cases o1 <;> cases s1 <;> cases m1 <;> cases t1 <;> cases d1 <;> rfl

/-- The serialized form carries a `message` member exactly when `message` is
set. -/
lemma hasKey_message (e : PebbleError) : e.toJson.hasKey "message" = e.message.isSome := by
  rcases e with ⟨c1, a1, o1, r1, s1, f1, m1, t1, d1⟩
  cases o1 <;> cases s1 <;> cases m1 <;> cases t1 <;> cases d1 <;> rfl

/-- The serialized form carries a `trace_id` member exactly when `trace_id` is
set. -/
lemma hasKey_trace_id (e : PebbleError) : e.toJson.hasKey "trace_id" = e.trace_id.isSome := by
  rcases e with ⟨c1, a1, o1, r1, s1, f1, m1, t1, d1⟩
  cases o1 <;> cases s1 <;> cases m1 <;> cases t1 <;> cases d1 <;> rfl

/-- The serialized form carries a `details` member exactly when `details` is
set. -/
lemma hasKey_details (e : PebbleError) : e.toJson.hasKey "details" = e.details.isSome := by
  rcases e with ⟨c1, a1, o1, r1, s1, f1, m1, t1, d1⟩
  cases o1 <;> cases s1 <;> cases m1 <;> cases t1 <;> cases d1 <;> rfl

/-- The `retry_after_s` member's value is the stored seconds, when present. -/
lemma getField_retry_after (e : PebbleError) :
    e.toJson.getField "retry_after_s" = e.retry_after_s.map (fun n => Json.num (Int.ofNat n)) := by
  rcases e with ⟨c1, a1, o1, r1, s1, f1, m1, t1, d1⟩
  cases o1 <;> cases s1 <;> cases m1 <;> cases t1 <;> cases d1 <;> rfl

/-! Claim theorems. -/

/-- C1: for every `PebbleError`, `exit_code` returns exactly the
category-fixed value of the table — 1 for `in`, 3 for `auth`, 4 for `time`,
and 2 for `net`, `ext`, and `sys` — independent of the error's `code`,
`message`, `op`, and `details` contents (the error is arbitrary apart from
its category string). -/
theorem exit_code_fixed_by_category (e : PebbleError) :
    (e.cat = "in" → e.exit_code = 1) ∧
    (e.cat = "auth" → e.exit_code = 3) ∧
    (e.cat = "time" → e.exit_code = 4) ∧
    (e.cat = "net" → e.exit_code = 2) ∧
    (e.cat = "ext" → e.exit_code = 2) ∧
    (e.cat = "sys" → e.exit_code = 2) := by
  refine ⟨?_, ?_, ?_, ?_, ?_, ?_⟩ <;>
    · intro h
      unfold PebbleError.exit_code
      rw [h]
      rfl

/-- Witness for C1 at a concrete error of each hypothesis shape: the `auth`
factory's error exits with code 3. -/
theorem exit_code_fixed_by_category_witness :
    (PebbleError.auth "NO_TOKEN" "missing token").exit_code = 3 :=
  (exit_code_fixed_by_category (PebbleError.auth "NO_TOKEN" "missing token")).2.1 rfl

/-- C2: in machine mode each of the four event kinds is emitted as exactly one
stdout line which is the rendering of a single self-contained JSON object with
`v = 1`, `type` equal to the kind's name, and the event body under `payload`. -/
theorem machine_mode_envelope_shape (level message : String) (percent : Nat)
    (data : Json) (err : PebbleError) :
    ((Output.new true).log level message =
      [emit "log" (jsonMacroObj [("level", Json.str level), ("message", Json.str message)])]) ∧
    ((Output.new true).progress percent message =
      [emit "progress" (jsonMacroObj [("percent", Json.num (Int.ofNat percent)), ("message", Json.str message)])]) ∧
    ((Output.new true).result data = [emit "result" data]) ∧
    (((Output.new true).error err).lines = [emit "error" err.toJson]) ∧
    (∀ t p, emit t p = ⟨OutStream.stdout, (machineRecord t p).render⟩) ∧
    (∀ t p, (machineRecord t p).getField "v" = some (Json.num 1) ∧
            (machineRecord t p).getField "type" = some (Json.str t) ∧
            (machineRecord t p).getField "payload" = some p) :=
  ⟨rfl, rfl, rfl, rfl, fun _ _ => rfl, fun _ _ => ⟨rfl, rfl, rfl⟩⟩

/-- C3: each category factory fixes `cat`, `retryable`, `retry_after_s`, and
`fix` to its table row for every `code`/`message`; and the concrete scenario
`error(net("SSH_FAILED", "connection refused"))` in machine mode emits exactly
the expected stdout line and exits with code 2. -/
theorem factory_policy_and_net_scenario (code message : String) (retry_after : Nat) :
    ((PebbleError.net code message).cat = "net" ∧
     (PebbleError.net code message).retryable = true ∧
     (PebbleError.net code message).retry_after_s = some 5 ∧
     (PebbleError.net code message).fix = ["proxy", "wait"]) ∧
    ((PebbleError.input code message).cat = "in" ∧
     (PebbleError.input code message).retryable = false ∧
     (PebbleError.input code message).retry_after_s = none ∧
     (PebbleError.input code message).fix = ["param"]) ∧
    ((PebbleError.auth code message).cat = "auth" ∧
     (PebbleError.auth code message).retryable = false ∧
     (PebbleError.auth code message).retry_after_s = none ∧
     (PebbleError.auth code message).fix = ["auth"]) ∧
    ((PebbleError.ext code message).cat = "ext" ∧
     (PebbleError.ext code message).retryable = true ∧
     (PebbleError.ext code message).retry_after_s = some 5 ∧
     (PebbleError.ext code message).fix = ["wait", "report"]) ∧
    ((PebbleError.sys code message).cat = "sys" ∧
     (PebbleError.sys code message).retryable = false ∧
     (PebbleError.sys code message).retry_after_s = none ∧
     (PebbleError.sys code message).fix = ["report"]) ∧
    ((PebbleError.timeout code message retry_after).cat = "time" ∧
     (PebbleError.timeout code message retry_after).retryable = true ∧
     (PebbleError.timeout code message retry_after).retry_after_s = some retry_after ∧
     (PebbleError.timeout code message retry_after).fix = ["wait"]) ∧
    (((Output.new true).error (PebbleError.net "SSH_FAILED" "connection refused")).lines =
      [⟨OutStream.stdout,
        "\x7b\"v\":1,\"type\":\"error\",\"payload\":\x7b\"code\":\"SSH_FAILED\",\"cat\":\"net\",\"retryable\":true,\"retry_after_s\":5,\"fix\":[\"proxy\",\"wait\"],\"message\":\"connection refused\"\x7d\x7d"⟩]) ∧
    (((Output.new true).error (PebbleError.net "SSH_FAILED" "connection refused")).exit_code = 2) :=
  ⟨⟨rfl, rfl, rfl, rfl⟩, ⟨rfl, rfl, rfl, rfl⟩, ⟨rfl, rfl, rfl, rfl⟩,
   ⟨rfl, rfl, rfl, rfl⟩, ⟨rfl, rfl, rfl, rfl⟩, ⟨rfl, rfl, rfl, rfl⟩, rfl, rfl⟩

/-- C4: for factory-built errors the serialized record carries `retry_after_s`
exactly when the error is retryable (value 5 for `net`/`ext`, the supplied
duration for `time`), and for every error each absent optional field (`op`,
`retry_after_s`, `message`, `trace_id`, `details`) is omitted from the
serialized object entirely rather than emitted as null. -/
theorem retry_after_presence_and_omission (c m : String) (r : Nat)
    (e : PebbleError) (hb : Built e) :
    ((PebbleError.net c m).toJson.getField "retry_after_s" = some (Json.num 5)) ∧
    ((PebbleError.ext c m).toJson.getField "retry_after_s" = some (Json.num 5)) ∧
    ((PebbleError.timeout c m r).toJson.getField "retry_after_s" = some (Json.num (Int.ofNat r))) ∧
    ((PebbleError.input c m).toJson.getField "retry_after_s" = none) ∧
    ((PebbleError.auth c m).toJson.getField "retry_after_s" = none) ∧
    ((PebbleError.sys c m).toJson.getField "retry_after_s" = none) ∧
    (e.toJson.hasKey "retry_after_s" = e.retryable) ∧
    (∀ e2 : PebbleError,
      (e2.op = none → e2.toJson.hasKey "op" = false) ∧
      (e2.retry_after_s = none → e2.toJson.hasKey "retry_after_s" = false) ∧
      (e2.message = none → e2.toJson.hasKey "message" = false) ∧
      (e2.trace_id = none → e2.toJson.hasKey "trace_id" = false) ∧
      (e2.details = none → e2.toJson.hasKey "details" = false)) := by
  refine ⟨rfl, rfl, rfl, rfl, rfl, rfl, ?_, ?_⟩
  · rw [hasKey_retry_after]
    exact (built_fields e hb).1
  · intro e2
    refine ⟨?_, ?_, ?_, ?_, ?_⟩ <;> intro h
    · rw [hasKey_op, h]; rfl
    · rw [hasKey_retry_after, h]; rfl
    · rw [hasKey_message, h]; rfl
    · rw [hasKey_trace_id, h]; rfl
    · rw [hasKey_details, h]; rfl

/-- Witness for C4 at a concrete factory error: the `net` error's serialized
record carries `retry_after_s` and the error is retryable. -/
theorem retry_after_presence_and_omission_witness :
    (PebbleError.net "A" "B").toJson.hasKey "retry_after_s" = (PebbleError.net "A" "B").retryable :=
  (retry_after_presence_and_omission "A" "B" 3 (PebbleError.net "A" "B")
      (Built.net "A" "B")).2.2.2.2.2.2.1

/-- C5: in both modes `Output::error` renders the error (machine mode: one
`error` envelope; human mode: the category/code/message headline, a
retry-after line exactly when the error is retryable and carries
`retry_after_s`, then the fix-hint list) and produces the terminal outcome
carrying `exit_code()` of the error — the model's `ErrorOutcome` is the final
process state, mirroring that `std::process::exit` never returns. -/
theorem error_renders_then_terminates (b : Bool) (e : PebbleError) :
    (((Output.new b).error e).exit_code = e.exit_code) ∧
    (((Output.new true).error e).lines = [emit "error" e.toJson]) ∧
    (((Output.new false).error e).lines =
      ⟨OutStream.stderr,
        "Error [" ++ e.cat ++ "][" ++ e.code ++ "]: " ++ e.message.getD ""⟩ ::
      ((if e.retryable then
          match e.retry_after_s with
          | some s => [⟨OutStream.stderr, "  Retry after: " ++ toString s ++ "s"⟩]
          | none => []
        else []) ++
       [⟨OutStream.stderr, "  Fix: " ++ rustDebugStrList e.fix⟩])) :=
  ⟨rfl, rfl, rfl⟩

/-- Counterexample to C6 as stated: the invocation with no subcommand
terminates through a direct stderr write and `std::process::exit(1)` in
`main`, not through the Output Channel's error path (and not as an exit-0
completion). -/
theorem no_subcommand_invocation_bypasses_channel :
    (mainRun "" (fun _ => none)
        { command := none, agent := false, manifest := false, verbose := false } =
      { path := TermPath.directExit, exit_code := 1,
        lines := [⟨OutStream.stderr, "Error: no command provided. Use --help for usage."⟩] }) ∧
    TermPath.directExit ≠ TermPath.outputError ∧
    TermPath.directExit ≠ TermPath.normalExit :=
  ⟨rfl, by decide, by decide⟩

/-- C6 amended: for every invocation that selects a subcommand (and is not
`--manifest`), the entry point terminates only through the Output Channel's
error path (wrapping a handler fault as `sys`/`INTERNAL`, exit code 2) or as
a normal exit-0 completion, never through the direct-exit path. -/
theorem subcommand_invocations_terminate_via_channel (manifestText : String)
    (handler : Command → Option String) (cli : Cli) (c : Command)
    (hc : cli.command = some c) (hm : cli.manifest = false) :
    ((mainRun manifestText handler cli).path ≠ TermPath.directExit) ∧
    (handler c = none →
      mainRun manifestText handler cli =
        { path := TermPath.normalExit, exit_code := 0, lines := [] }) ∧
    (∀ msg, handler c = some msg →
      mainRun manifestText handler cli =
        { path := TermPath.outputError,
          exit_code := 2,
          lines := ((Output.new cli.agent).error (PebbleError.sys "INTERNAL" msg)).lines }) := by
  have hrun : mainRun manifestText handler cli =
      match handler c with
      | some msg =>
          { path := TermPath.outputError,
            exit_code := ((Output.new cli.agent).error (PebbleError.sys "INTERNAL" msg)).exit_code,
            lines := ((Output.new cli.agent).error (PebbleError.sys "INTERNAL" msg)).lines }
      | none => { path := TermPath.normalExit, exit_code := 0, lines := [] } := by
    simp [mainRun, hm, hc]
  refine ⟨?_, ?_, ?_⟩
  · rw [hrun]
    cases hh : handler c <;> simp
  · intro h0
    rw [hrun, h0]
  · intro msg hmsg
    rw [hrun, hmsg]
    rfl

/-- Witness for C6's amended theorem at a concrete subcommand invocation. -/
theorem subcommand_invocations_terminate_via_channel_witness :
    (mainRun "" (fun _ => none)
        { command := some Command.dns, agent := false, manifest := false, verbose := false }).path
      ≠ TermPath.directExit :=
  (subcommand_invocations_terminate_via_channel "" (fun _ => none)
      { command := some Command.dns, agent := false, manifest := false, verbose := false }
      Command.dns rfl rfl).1

/-- C7: in machine mode `result(data)` emits exactly one stdout line — the
rendered `result` envelope — and that envelope's `payload` field is the
original data, embedded verbatim. -/
theorem result_payload_round_trip (data : Json) :
    ((Output.new true).result data =
      [⟨OutStream.stdout, (machineRecord "result" data).render⟩]) ∧
    ((machineRecord "result" data).getField "payload" = some data) :=
  ⟨rfl, rfl⟩

/-- C8: `with_op` sets only `op` and `with_details` sets only `details`; every
other field of the error is unchanged by either mutator. -/
theorem builder_mutators_frame_effect (e : PebbleError) (o : String) (d : Json) :
    ((e.with_op o).op = some o ∧
     (e.with_op o).code = e.code ∧ (e.with_op o).cat = e.cat ∧
     (e.with_op o).retryable = e.retryable ∧
     (e.with_op o).retry_after_s = e.retry_after_s ∧
     (e.with_op o).fix = e.fix ∧ (e.with_op o).message = e.message ∧
     (e.with_op o).trace_id = e.trace_id ∧ (e.with_op o).details = e.details) ∧
    ((e.with_details d).details = some d ∧
     (e.with_details d).code = e.code ∧ (e.with_details d).cat = e.cat ∧
     (e.with_details d).op = e.op ∧
     (e.with_details d).retryable = e.retryable ∧
     (e.with_details d).retry_after_s = e.retry_after_s ∧
     (e.with_details d).fix = e.fix ∧ (e.with_details d).message = e.message ∧
     (e.with_details d).trace_id = e.trace_id) :=
  ⟨⟨rfl, rfl, rfl, rfl, rfl, rfl, rfl, rfl, rfl⟩,
   ⟨rfl, rfl, rfl, rfl, rfl, rfl, rfl, rfl, rfl⟩⟩

/-- C9: for every representable percent (the `u8` range, including values
above 100) `progress` neither rejects, clamps, nor alters the percent: the
machine-mode payload's `percent` field equals the supplied value, and the
human-mode line prints the supplied value as given (width-3 padded). -/
theorem progress_percent_passes_through (percent : Nat) (_hp : percent ≤ 255) (message : String) :
    ((Output.new true).progress percent message =
      [emit "progress" (jsonMacroObj [("percent", Json.num (Int.ofNat percent)), ("message", Json.str message)])]) ∧
    ((jsonMacroObj [("percent", Json.num (Int.ofNat percent)), ("message", Json.str message)]).getField "percent"
      = some (Json.num (Int.ofNat percent))) ∧
    ((Output.new false).progress percent message =
      [⟨OutStream.stderr, "[" ++ padWidth 3 (toString percent) ++ "%] " ++ message⟩]) :=
  ⟨rfl, rfl, rfl⟩

/-- Witness for C9 at the out-of-range percent 250: the emitted payload keeps
the value unmodified. -/
theorem progress_percent_passes_through_witness :
    (jsonMacroObj [("percent", Json.num 250), ("message", Json.str "upload")]).getField "percent"
      = some (Json.num 250) :=
  (progress_percent_passes_through 250 (by decide) "upload").2.1

/-- C10: every factory populates `message` with the supplied string and leaves
`trace_id` unset; since no factory or builder ever sets `trace_id`, no
program-buildable error serializes with a `trace_id` member, while every one
serializes with a `message` member. -/
theorem message_populated_trace_id_absent (c m : String) (r : Nat)
    (e : PebbleError) (hb : Built e) :
    ((PebbleError.net c m).message = some m) ∧
    ((PebbleError.input c m).message = some m) ∧
    ((PebbleError.auth c m).message = some m) ∧
    ((PebbleError.ext c m).message = some m) ∧
    ((PebbleError.sys c m).message = some m) ∧
    ((PebbleError.timeout c m r).message = some m) ∧
    (e.trace_id = none) ∧
    (e.message.isSome = true) ∧
    (e.toJson.hasKey "trace_id" = false) ∧
    (e.toJson.hasKey "message" = true) := by
  obtain ⟨h1, h2, h3⟩ := built_fields e hb
  refine ⟨rfl, rfl, rfl, rfl, rfl, rfl, h2, h3, ?_, ?_⟩
  · rw [hasKey_trace_id, h2]; rfl
  · rw [hasKey_message]
    exact h3

/-- Witness for C10 at a concrete builder-annotated error. -/
theorem message_populated_trace_id_absent_witness :
    ((PebbleError.timeout "TIMEOUT" "deadline" 10).with_op "service.health").toJson.hasKey "trace_id" = false :=
  (message_populated_trace_id_absent "TIMEOUT" "deadline" 10
      ((PebbleError.timeout "TIMEOUT" "deadline" 10).with_op "service.health")
      (Built.with_op _ _ (Built.timeout "TIMEOUT" "deadline" 10))).2.2.2.2.2.2.2.2.1
